import Mathlib

/-!
Verification of the HIRE-TRON recruiting workflow engine.

This file gives a shallow embedding, in Lean 4, of the validation layer,
the validated LangGraph workflow, the retrieval/screening pipeline, the
batch processor and the retry wrapper of the HIRE-TRON repository, and
proves or refutes the frozen specification claims about them.

Modelling conventions:
- Python values are embedded as the inductive `PyVal`; Python dicts are
  association lists with unique keys (`PyDict`), preserving insertion
  order as Python 3.7+ dicts do.  Python floats are embedded as
  rationals.
- Stateful code becomes explicit state passing; fallible Python code
  (`try`/`except`) is embedded with `Option`/`Except` and explicit
  success/failure branches.
- External collaborators (the OpenAI completion capability, the JSON
  decoder applied to its responses, the embedding service, the Chroma
  vector search) are parameters of the embedded functions.
- The `messages` field of the workflow state is an append-only
  human-readable log that no agent ever reads back and no claim
  mentions; it is omitted from the embedded state.
-/

/-- Embedded Python values: None, strings, integers, booleans, rationals
(for floats), lists, and dicts as ordered association lists. -/
inductive PyVal where
  | none : PyVal
  | str : String → PyVal
  | int : Int → PyVal
  | bool : Bool → PyVal
  | rat : ℚ → PyVal
  | list : List PyVal → PyVal
  | dict : List (String × PyVal) → PyVal

/-- A Python dict, in insertion order. -/
abbrev PyDict := List (String × PyVal)

/-- Python truthiness (`bool(v)`): None, empty string, zero, False, zero
float, empty list and empty dict are falsy. -/
def PyVal.truthy : PyVal → Bool
  | .none => false
  | .str s => !(s == "")
  | .int n => !(n == 0)
  | .bool b => b
  | .rat q => !(q == 0)
  | .list l => !l.isEmpty
  | .dict d => !d.isEmpty

/-- `key in d` for a Python dict. -/
def dictHas (d : PyDict) (k : String) : Bool :=
  d.any (fun p => p.1 == k)

/-- `d.get(key)` for a Python dict. -/
def dictGet (d : PyDict) (k : String) : Option PyVal :=
  (d.find? (fun p => p.1 == k)).map (fun p => p.2)

/-- `d[key] = v` for a Python dict: replaces the value in place when the
key exists, otherwise appends the key at the end (insertion order). -/
def dictSet (d : PyDict) (k : String) (v : PyVal) : PyDict :=
  if dictHas d k then d.map (fun p => if p.1 == k then (k, v) else p)
  else d ++ [(k, v)]

/-- `d.get(key, default)` where the value is expected to be a string. -/
def dictGetStrD (d : PyDict) (k : String) (default : String) : String :=
  match dictGet d k with
  | some (.str s) => s
  | _ => default

/-- `d.get(key, default)` where the value is expected to be an integer. -/
def dictGetIntD (d : PyDict) (k : String) (default : Int) : Int :=
  match dictGet d k with
  | some (.int n) => n
  | _ => default

/-- Python `str.strip()`: removes leading and trailing whitespace.
(Defined by structural recursion on the character list so that concrete
instances evaluate; `String.trim` in core Lean is equivalent but is
defined by well-founded recursion on positions.) -/
def pyStrip (s : String) : String :=
  String.mk (((s.data.dropWhile Char.isWhitespace).reverse.dropWhile
    Char.isWhitespace).reverse)

/-- The validation-result triple `valid`/`errors`/`warnings` shared by
both validation layers (§ValidationResult of the spec). -/
structure ValidationResult where
  valid : Bool
  errors : List String
  warnings : List String
deriving Repr, DecidableEq

/-- The input slice of the workflow state read by `validate_input`.
`state.get(key, default)` on a state dict missing a key returns exactly
the falsy defaults `''`/`None`/`0`, which behave identically to the
empty string (resp. 0) everywhere `validate_input` looks, so absent
keys are embedded as `""` and `0`. -/
structure InputState where
  job_description : String
  company_name : String
  department : String
  min_salary : Int
  max_salary : Int
deriving Repr, DecidableEq

namespace Langgraph

/-- `validate_input` of `Langgraph_recruiting.py` (validated variant,
lines 413-453): independent `if` checks appending to `errors` and
`warnings`, `valid` iff no error. -/
def validate_input (s : InputState) : ValidationResult :=
  let errors0 : List String := []
  let warnings0 : List String := []
  let errors1 :=
    if s.job_description == "" || decide ((pyStrip s.job_description).length < 50) then
      errors0 ++ ["Job description must be at least 50 characters"]
    else errors0
  let warnings1 :=
    if decide (s.job_description.length > 5000) then
      warnings0 ++ ["Very long job description - may increase processing time"]
    else warnings0
  let errors2 :=
    if s.company_name == "" then errors1 ++ ["Company name is required"] else errors1
  let warnings2 :=
    if s.department == "" then
      warnings1 ++ ["Department not specified - using \x27General\x27"]
    else warnings1
  let min_sal := s.min_salary
  let max_sal := s.max_salary
  let errors3 :=
    if decide (min_sal ≤ 0) || decide (max_sal ≤ 0) then
      errors2 ++ ["Salary range must be positive numbers"]
    else errors2
  let errors4 :=
    if decide (min_sal ≥ max_sal) then
      errors3 ++ ["Minimum salary must be less than maximum salary"]
    else errors3
  let warnings3 :=
    if decide (min_sal < 20000) then warnings2 ++ ["Minimum salary seems very low"]
    else warnings2
  let warnings4 :=
    if decide (max_sal > 1000000) then warnings3 ++ ["Maximum salary seems very high"]
    else warnings3
  { valid := errors4.isEmpty, errors := errors4, warnings := warnings4 }

/-- `validate_agent_output` of `Langgraph_recruiting.py` (lines
456-481): non-dict outputs fail immediately; missing expected fields
produce a single aggregated error; present-but-empty fields produce one
warning each. -/
def validate_agent_output (agent_name : String) (output : PyVal)
    (expected_fields : List String) : ValidationResult :=
  match output with
  | .dict d =>
      let missing_fields := expected_fields.filter (fun f => !dictHas d f)
      let errors :=
        if missing_fields.isEmpty then ([] : List String)
        else [agent_name ++ ": Missing fields: " ++ String.intercalate ", " missing_fields]
      let warnings := expected_fields.filterMap (fun f =>
        match dictGet d f with
        | some v =>
            if emptyish v then some (agent_name ++ ": Field \x27" ++ f ++ "\x27 is empty")
            else Option.none
        | Option.none => Option.none)
      { valid := errors.isEmpty, errors := errors, warnings := warnings }
  | _ =>
      { valid := false, errors := [agent_name ++ ": Output must be a dictionary"],
        warnings := [] }
where
  /-- `value is None or (isinstance(value, (list, dict, str)) and not value)`. -/
  emptyish : PyVal → Bool
  | .none => true
  | .str s => s == ""
  | .list l => l.isEmpty
  | .dict d => d.isEmpty
  | _ => false

end Langgraph

namespace Demo

/-- The result dict of `AgentValidator.validate_input` in
`Validation_demo.py`, which carries a wall-clock `timestamp` alongside
the `valid`/`errors`/`warnings` triple. -/
structure TimedResult where
  valid : Bool
  errors : List String
  warnings : List String
  timestamp : String
deriving Repr, DecidableEq

/-- The `valid`/`errors`/`warnings` triple of a timed result. -/
def TimedResult.triple (r : TimedResult) : ValidationResult :=
  { valid := r.valid, errors := r.errors, warnings := r.warnings }

/-- `AgentValidator.validate_input` of `Validation_demo.py` (lines
18-56).  Salary checks form one `if`/`elif` chain, so at most one of
the two salary errors is ever reported.  `datetime.now().isoformat()`
is passed in as `now`. -/
def validate_input (s : InputState) (now : String) : TimedResult :=
  let errors0 : List String := []
  let warnings0 : List String := []
  let job_desc := s.job_description
  let errors1 :=
    if job_desc == "" || decide ((pyStrip job_desc).length < 50) then
      errors0 ++ ["❌ Job description must be at least 50 characters"]
    else errors0
  let warnings1 :=
    if !(job_desc == "" || decide ((pyStrip job_desc).length < 50)) &&
        decide (job_desc.length > 5000) then
      warnings0 ++ ["⚠️  Very long job description - may increase processing time"]
    else warnings0
  let errors2 :=
    if s.company_name == "" then errors1 ++ ["❌ Company name is required"] else errors1
  let warnings2 :=
    if s.department == "" then
      warnings1 ++ ["⚠️  Department not specified - using \x27General\x27"]
    else warnings1
  let min_sal := s.min_salary
  let max_sal := s.max_salary
  let errors3 :=
    if decide (min_sal ≤ 0) || decide (max_sal ≤ 0) then
      errors2 ++ ["❌ Salary range must be positive numbers"]
    else errors2
  let errors4 :=
    if !(decide (min_sal ≤ 0) || decide (max_sal ≤ 0)) && decide (min_sal ≥ max_sal) then
      errors3 ++ ["❌ Minimum salary must be less than maximum salary"]
    else errors3
  let warnings3 :=
    if !(decide (min_sal ≤ 0) || decide (max_sal ≤ 0)) && !(decide (min_sal ≥ max_sal)) &&
        decide (min_sal < 20000) then
      warnings2 ++ ["⚠️  Minimum salary seems very low"]
    else warnings2
  let warnings4 :=
    if !(decide (min_sal ≤ 0) || decide (max_sal ≤ 0)) && !(decide (min_sal ≥ max_sal)) &&
        !(decide (min_sal < 20000)) && decide (max_sal > 1000000) then
      warnings3 ++ ["⚠️  Maximum salary seems very high"]
    else warnings3
  { valid := errors4.isEmpty, errors := errors4, warnings := warnings4, timestamp := now }

/-- The result of `AgentValidator.validate_agent_output`; the early
non-dict return carries no `fields_checked`/`timestamp` keys, embedded
here as `Option.none`. -/
structure OutputResult where
  valid : Bool
  errors : List String
  warnings : List String
  fields_checked : Option Nat
  timestamp : Option String
deriving Repr, DecidableEq

/-- The `valid`/`errors`/`warnings` triple of an output result. -/
def OutputResult.triple (r : OutputResult) : ValidationResult :=
  { valid := r.valid, errors := r.errors, warnings := r.warnings }

/-- The per-field type expectations of `validate_agent_output` in
`Validation_demo.py` (its `type_hints` dict), in insertion order. -/
def type_hints : List String :=
  ["required_skills", "responsibilities", "platforms", "screening_questions",
   "benefits_package", "target_salary", "job_title", "experience_level"]

/-- Whether a value satisfies the `type_hints` expectation of a field
(`isinstance` against `list`, `(int, float)` or `str`). -/
def typeMatches (field : String) (v : PyVal) : Bool :=
  if field == "target_salary" then
    match v with
    | .int _ => true
    | .rat _ => true
    | _ => false
  else if field == "job_title" || field == "experience_level" then
    match v with
    | .str _ => true
    | _ => false
  else
    match v with
    | .list _ => true
    | _ => false

/-- The Python `type(v).__name__` of an embedded value. -/
def pyTypeName : PyVal → String
  | .none => "NoneType"
  | .str _ => "str"
  | .int _ => "int"
  | .bool _ => "bool"
  | .rat _ => "float"
  | .list _ => "list"
  | .dict _ => "dict"

/-- The rendering of the expected type in the demo type-mismatch
warning (the f-string interpolates the `type_hints` entry). -/
def expectedTypeStr (field : String) : String :=
  if field == "target_salary" then "(<class \x27int\x27>, <class \x27float\x27>)"
  else if field == "job_title" || field == "experience_level" then "<class \x27str\x27>"
  else "<class \x27list\x27>"

/-- `AgentValidator.validate_agent_output` of `Validation_demo.py`
(lines 58-108): non-dict outputs fail with the triple only; missing
expected fields yield a single aggregated error; present fields that
are `None` or empty yield one warning each; `type_hints` mismatches
yield warnings, never errors. -/
def validate_agent_output (agent_name : String) (output : PyVal)
    (expected_fields : List String) (now : String) : OutputResult :=
  match output with
  | .dict d =>
      let missing_fields := expected_fields.filter (fun f => !dictHas d f)
      let errors :=
        if missing_fields.isEmpty then ([] : List String)
        else ["❌ " ++ agent_name ++ ": Missing required fields: " ++
              String.intercalate ", " missing_fields]
      let emptyWarnings := expected_fields.filterMap (fun f =>
        match dictGet d f with
        | some PyVal.none =>
            some ("⚠️  " ++ agent_name ++ ": Field \x27" ++ f ++ "\x27 is None")
        | some (.str s) =>
            if s == "" then
              some ("⚠️  " ++ agent_name ++ ": Field \x27" ++ f ++ "\x27 is empty")
            else Option.none
        | some (.list l) =>
            if l.isEmpty then
              some ("⚠️  " ++ agent_name ++ ": Field \x27" ++ f ++ "\x27 is empty")
            else Option.none
        | some (.dict d2) =>
            if d2.isEmpty then
              some ("⚠️  " ++ agent_name ++ ": Field \x27" ++ f ++ "\x27 is empty")
            else Option.none
        | _ => Option.none)
      let typeWarnings := type_hints.filterMap (fun f =>
        match dictGet d f with
        | some PyVal.none => Option.none
        | some v =>
            if typeMatches f v then Option.none
            else some ("⚠️  " ++ agent_name ++ ": Field \x27" ++ f ++ "\x27 should be " ++
                       expectedTypeStr f ++ ", got " ++ pyTypeName v)
        | Option.none => Option.none)
      let warnings := emptyWarnings ++ typeWarnings
      { valid := errors.isEmpty, errors := errors, warnings := warnings,
        fields_checked := some expected_fields.length, timestamp := some now }
  | _ =>
      { valid := false,
        errors := ["❌ " ++ agent_name ++ ": Output must be a dictionary, got " ++
                   pyTypeName output],
        warnings := [], fields_checked := Option.none, timestamp := Option.none }

end Demo

namespace Langgraph

/-- The workflow state `RecruitingState` of the validated variant in
`Langgraph_recruiting.py` (lines 388-407).  The four structured agent
outputs hold whatever `json.loads` produced, so they are `PyVal`; the
input fields are always populated by the callers (`app.py` builds them
with defaults), and absent `errors`/`validation_results` keys behave
exactly like their empty defaults under `state.get`.  The append-only
`messages` log is never read and is omitted. -/
structure RState where
  job_description : String
  company_name : String
  department : String
  min_salary : Int
  max_salary : Int
  job_analysis : PyVal
  sourcing_strategy : PyVal
  screening_criteria : PyVal
  compensation_package : PyVal
  offer_letter : String
  errors : List String
  validation_results : PyDict

/-- The input slice of the workflow state, as read by `validate_input`. -/
def RState.inputView (s : RState) : InputState :=
  { job_description := s.job_description, company_name := s.company_name,
    department := s.department, min_salary := s.min_salary, max_salary := s.max_salary }

/-- A `ValidationResult` as the Python dict stored into
`state['validation_results']`. -/
def vrToPy (vr : ValidationResult) : PyVal :=
  .dict [("valid", .bool vr.valid),
         ("errors", .list (vr.errors.map PyVal.str)),
         ("warnings", .list (vr.warnings.map PyVal.str))]

/-- The five nodes of the fixed workflow graph. -/
inductive Stage where
  | parse_job
  | source_candidates
  | create_screening
  | analyze_compensation
  | generate_offer
deriving Repr, DecidableEq

/-- The fallback payload of `job_parser_agent` when `json.loads` raises
(lines 532-543), including its `error` marker. -/
def jobParserFallback : PyDict :=
  [("job_title", .str "Software Engineer"),
   ("experience_level", .str "3+ years"),
   ("employment_type", .str "Full-time"),
   ("required_skills", .list [.str "Python"]),
   ("nice_to_have_skills", .list [.str "AWS"]),
   ("responsibilities", .list [.str "Develop software"]),
   ("qualifications", .list [.str "Bachelor\x27s degree"]),
   ("error", .str "Failed to parse LLM response")]

/-- `job_parser_agent` (lines 488-550): validates the input state and
aborts with an error payload when invalid; otherwise decodes the
completion response, validating the decoded output, and substitutes the
fixed fallback payload on a decoding failure.  `decode` embeds
`json.loads` applied to the response `complete` of the external
completion capability for this stage. -/
def job_parser_agent (decode : String → Option PyVal) (complete : String)
    (s : RState) : RState :=
  let validation := validate_input s.inputView
  if !validation.valid then
    { s with errors := s.errors ++ validation.errors,
             job_analysis := .dict [("error", .str "Validation failed")] }
  else
    match decode complete with
    | some parsed_data =>
        let expected_fields := ["job_title", "experience_level", "employment_type",
                                "required_skills", "responsibilities", "qualifications"]
        let output_validation := validate_agent_output "Job Parser" parsed_data expected_fields
        let s1 :=
          if !output_validation.valid then
            { s with errors := s.errors ++ output_validation.errors }
          else s
        let s2 := { s1 with validation_results :=
                      dictSet s1.validation_results "job_parser" (vrToPy output_validation) }
        { s2 with job_analysis := parsed_data }
    | Option.none =>
        let s1 := { s with errors := s.errors ++ ["Job Parser: Failed to parse LLM response"] }
        { s1 with job_analysis := .dict jobParserFallback }

/-- The fallback payload of `candidate_sourcing_agent` when `json.loads`
raises (lines 588-596). -/
def sourcingFallback : PyDict :=
  [("platforms", .list [.dict [("name", .str "LinkedIn"),
                               ("reason", .str "Professional network")]]),
   ("search_keywords", .list [.str "Python Developer"]),
   ("sourcing_channels", .list [.str "Job boards"]),
   ("outreach_strategy", .str "Direct outreach"),
   ("timeline", .str "2-4 weeks"),
   ("error", .str "Failed to parse LLM response")]

/-- `candidate_sourcing_agent` (lines 553-604). -/
def candidate_sourcing_agent (decode : String → Option PyVal) (complete : String)
    (s : RState) : RState :=
  match decode complete with
  | some sourcing_data =>
      let expected_fields := ["platforms", "search_keywords", "outreach_strategy", "timeline"]
      let output_validation := validate_agent_output "Sourcing" sourcing_data expected_fields
      let s1 :=
        if !output_validation.valid then
          { s with errors := s.errors ++ output_validation.errors }
        else s
      let s2 := { s1 with validation_results :=
                    dictSet s1.validation_results "sourcing" (vrToPy output_validation) }
      { s2 with sourcing_strategy := sourcing_data }
  | Option.none =>
      let s1 := { s with errors := s.errors ++ ["Sourcing: Failed to parse LLM response"] }
      { s1 with sourcing_strategy := .dict sourcingFallback }

/-- The fallback payload of `screening_agent` when `json.loads` raises
(lines 642-650). -/
def screeningFallback : PyDict :=
  [("must_have_criteria", .list [.str "Relevant experience"]),
   ("nice_to_have_criteria", .list [.str "Advanced skills"]),
   ("screening_questions", .list [.str "Tell me about your experience"]),
   ("technical_assessment", .str "Coding challenge"),
   ("evaluation_rubric", .str "Standard evaluation"),
   ("error", .str "Failed to parse LLM response")]

/-- `screening_agent` (lines 607-658). -/
def screening_agent (decode : String → Option PyVal) (complete : String)
    (s : RState) : RState :=
  match decode complete with
  | some screening_data =>
      let expected_fields := ["must_have_criteria", "screening_questions"]
      let output_validation := validate_agent_output "Screening" screening_data expected_fields
      let s1 :=
        if !output_validation.valid then
          { s with errors := s.errors ++ output_validation.errors }
        else s
      let s2 := { s1 with validation_results :=
                    dictSet s1.validation_results "screening" (vrToPy output_validation) }
      { s2 with screening_criteria := screening_data }
  | Option.none =>
      let s1 := { s with errors := s.errors ++ ["Screening: Failed to parse LLM response"] }
      { s1 with screening_criteria := .dict screeningFallback }

/-- The fallback payload of `compensation_agent` when `json.loads`
raises (lines 712-721); its salary figures come from the input state,
with Python floor division for the target. -/
def compensationFallback (min_salary max_salary : Int) : PyDict :=
  [("market_analysis", .str "Competitive market"),
   ("recommended_salary_range", .dict [("min", .int min_salary), ("max", .int max_salary)]),
   ("target_salary", .int ((min_salary + max_salary).fdiv 2)),
   ("benefits_package", .list [.str "Health insurance", .str "PTO"]),
   ("equity_structure", .str "Standard equity"),
   ("justification", .str "Market competitive"),
   ("error", .str "Failed to parse LLM response")]

/-- `compensation_agent` (lines 661-729): on a successful decode it
additionally warns when a numeric `target_salary` falls outside the
budget range and defaults `recommended_salary_range` when absent.  (A
non-numeric `target_salary` would raise an uncaught `TypeError` at the
comparison in Python; that branch skips the check here and is outside
every claim.) -/
def compensation_agent (decode : String → Option PyVal) (complete : String)
    (s : RState) : RState :=
  match decode complete with
  | some comp_data =>
      let expected_fields := ["target_salary", "benefits_package"]
      let output_validation := validate_agent_output "Compensation" comp_data expected_fields
      let output_validation :=
        match comp_data with
        | .dict d =>
            match dictGet d "target_salary" with
            | some (.int target) =>
                if decide (target < s.min_salary) || decide (target > s.max_salary) then
                  { output_validation with warnings :=
                      output_validation.warnings ++
                        ["Target salary $" ++ toString target ++ " is outside budget range"] }
                else output_validation
            | _ => output_validation
        | _ => output_validation
      let s1 :=
        if !output_validation.valid then
          { s with errors := s.errors ++ output_validation.errors }
        else s
      let s2 := { s1 with validation_results :=
                    dictSet s1.validation_results "compensation" (vrToPy output_validation) }
      let comp_data :=
        match comp_data with
        | .dict d =>
            if !dictHas d "recommended_salary_range" then
              PyVal.dict (d ++ [("recommended_salary_range",
                .dict [("min", .int s.min_salary), ("max", .int s.max_salary)])])
            else .dict d
        | other => other
      { s2 with compensation_package := comp_data }
  | Option.none =>
      let s1 := { s with errors := s.errors ++ ["Compensation: Failed to parse LLM response"] }
      { s1 with compensation_package := .dict (compensationFallback s.min_salary s.max_salary) }

/-- `offer_letter_agent` (lines 732-788): the response text itself
becomes the offer letter (no JSON decoding and no fallback payload);
letters under 200 characters add a length error.  The prompt built from
earlier stage outputs only feeds the external completion capability, so
it is absorbed into the `complete` parameter; the `except` branch of
the agent is unreachable because the embedded capability is total. -/
def offer_letter_agent (complete : String) (s : RState) : RState :=
  let offer_letter := complete
  let s1 :=
    if decide (offer_letter.length < 200) then
      { s with errors := s.errors ++ ["Offer Letter: Generated letter is too short"] }
    else s
  let vr : PyVal :=
    .dict [("valid", .bool (decide (offer_letter.length ≥ 200))),
           ("errors", .list (if decide (offer_letter.length ≥ 200) then []
                             else [.str "Letter too short"])),
           ("warnings", .list []),
           ("char_count", .int offer_letter.length)]
  let s2 := { s1 with validation_results := dictSet s1.validation_results "offer_letter" vr }
  { s2 with offer_letter := offer_letter }

/-- One run of the compiled workflow graph of `create_recruiting_graph`
(lines 795-827): `parse_job` first, then the three parallel branches,
then `generate_offer` after `analyze_compensation`.  The branches write
disjoint output fields and only append to the shared logs, so the run
is embedded as their sequential composition in node-addition order;
`complete` gives the raw response of the external completion capability
at each stage and `decode` embeds `json.loads`. -/
def runWorkflow (decode : String → Option PyVal) (complete : Stage → String)
    (s : RState) : RState :=
  let s1 := job_parser_agent decode (complete .parse_job) s
  let s2 := candidate_sourcing_agent decode (complete .source_candidates) s1
  let s3 := screening_agent decode (complete .create_screening) s2
  let s4 := compensation_agent decode (complete .analyze_compensation) s3
  offer_letter_agent (complete .generate_offer) s4

end Langgraph

namespace Retrieval

/-- The inner (single-query) slice of a Chroma `query` result as read by
`retrieve_candidates_for_job`: `results['ids'][0]` and its parallel
companions.  The empty result that `search_similar_resumes` substitutes
on a search failure has all four lists empty. -/
structure SearchResults where
  ids : List String
  documents : List String
  metadatas : List PyDict
  distances : List ℚ

/-- The candidate-dict construction loop of
`retrieve_candidates_for_job` (lines 55-62): one dict per retrieved id,
indexing the parallel lists; an out-of-range index raises `IndexError`
in Python, embedded as `Option.none`. -/
def buildCandidates (r : SearchResults) : Option (List PyDict) :=
  (List.range r.ids.length).mapM (fun i =>
    match r.ids.get? i, r.documents.get? i, r.metadatas.get? i, r.distances.get? i with
    | some id, some doc, some md, some dist =>
        some [("resume_id", .str id),
              ("resume_text", .str doc),
              ("metadata", .dict md),
              ("similarity_score", .rat (1 - dist))]
    | _, _, _, _ => Option.none)

/-- `RetrievalService.retrieve_candidates_for_job` of
`services/retriever.py` (lines 23-69).  `jd` is the result of
`vector_store.get_job_description(jd_id)`; `embed` and `search` are the
external embedding and vector-search capabilities.  Every exception in
the body (`KeyError` on a malformed stored job description, the
`IndexError` above) is caught by the surrounding `try` and yields `[]`. -/
def retrieve_candidates_for_job (jd : Option PyDict) (embed : String → List ℚ)
    (search : List ℚ → Nat → SearchResults) (top_k : Nat) : List PyDict :=
  match jd with
  | Option.none => []
  | some j =>
      if !(PyVal.dict j).truthy then []
      else
        match dictGet j "text" with
        | some (.str text) =>
            let jd_embedding := embed text
            let results := search jd_embedding top_k
            match buildCandidates results with
            | some candidates => candidates
            | Option.none => []
        | _ => []

/-- The outcome of one `screen_resume_async` task as observed by
`asyncio.gather(..., return_exceptions=True)`: either an exception
value or the `Optional[Dict]` returned by `ResumeScreenerAgent.screen`
(which is `None` after any caught failure). -/
inductive ScreenOutcome where
  | exn (msg : String)
  | result (v : PyVal)

/-- Whether the result-combination loop of `screen_multiple_candidates`
keeps a task outcome: exceptions are skipped and the result must be
truthy (`if result:`). -/
def ScreenOutcome.kept : ScreenOutcome → Bool
  | .exn _ => false
  | .result v => v.truthy

/-- The screening value of an outcome (only meaningful when kept). -/
def ScreenOutcome.value : ScreenOutcome → PyVal
  | .exn _ => PyVal.none
  | .result v => v

/-- `OrchestratorAgent.screen_multiple_candidates` of
`agents/orchestrator.py` (lines 86-127): one screening task per
candidate in order, gathered in task order; failed or falsy screenings
drop only their own candidate; surviving candidates are the input dict
extended with a `screening` key (`{**candidates[i], 'screening': result}`). -/
def screen_multiple_candidates (screen : PyDict → ScreenOutcome)
    (candidates : List PyDict) : List PyDict :=
  candidates.filterMap (fun c =>
    match screen c with
    | .exn _ => Option.none
    | .result v =>
        if v.truthy then some (dictSet c "screening" v) else Option.none)

/-- Modelled from the spec: the spec names `rank_candidates` as the
Retrieval Ranker contract; the repository implements it as
`retrieve_candidates_for_job` followed by `screen_multiple_candidates`
and contains no sorting step anywhere. -/
def rank_candidates (jd : Option PyDict) (embed : String → List ℚ)
    (search : List ℚ → Nat → SearchResults) (top_k : Nat)
    (screen : PyDict → ScreenOutcome) : List PyDict :=
  screen_multiple_candidates screen (retrieve_candidates_for_job jd embed search top_k)

/-- The claim-side reading of the combination loop in C10, for
comparison with the source embedding: only candidates whose screening
task raised or returned `None` are omitted (an empty-dict result is
kept). -/
def screen_multiple_candidates_claimC10 (screen : PyDict → ScreenOutcome)
    (candidates : List PyDict) : List PyDict :=
  candidates.filterMap (fun c =>
    match screen c with
    | .exn _ => Option.none
    | .result PyVal.none => Option.none
    | .result v => some (dictSet c "screening" v))

/-- The screening score of an enriched candidate, for stating order
properties: `candidate['screening']['score']`. -/
def screeningScore (c : PyDict) : Option Int :=
  match dictGet c "screening" with
  | some (.dict sc) =>
      match dictGet sc "score" with
      | some (.int n) => some n
      | _ => Option.none
  | _ => Option.none

end Retrieval

namespace Batch

open Langgraph

/-- One entry in the list returned by `BatchProcessor.process_batch`:
either the success dict of `process_single` tagged with
`batch_index`/`status`, or the error record
`{batch_index, status: error, error, config}`. -/
inductive BatchEntry where
  | success (batch_index : Nat) (config : PyDict) (job_analysis : PyVal)
      (sourcing_strategy : PyVal) (screening_criteria : PyVal)
      (compensation_package : PyVal) (offer_letter : String)
  | error (batch_index : Nat) (error : String) (config : PyDict)

/-- The `status` field of a batch entry. -/
def BatchEntry.status : BatchEntry → String
  | .success _ _ _ _ _ _ _ => "success"
  | .error _ _ _ => "error"

/-- The result dict of a successful `process_single` call (its
`config` and the projected final-state fields; the unread `messages`
log is omitted as elsewhere). -/
structure SingleResult where
  config : PyDict
  job_analysis : PyVal
  sourcing_strategy : PyVal
  screening_criteria : PyVal
  compensation_package : PyVal
  offer_letter : String

/-- `BatchProcessor.process_single` of `app.py` (lines 113-134): builds
the initial workflow state from the config with the documented
defaults, invokes the graph, and projects the result.
`config['job_description']` is a direct index, so a config without that
key raises `KeyError` (whose `str` is the quoted key name); `invoke`
embeds `self.graph.invoke`, which may itself raise. -/
def process_single (invoke : RState → Except String RState) (config : PyDict) :
    Except String SingleResult :=
  match dictGet config "job_description" with
  | Option.none => .error "\x27job_description\x27"
  | some jd =>
      let initial_state : RState :=
        { job_description := (match jd with | .str t => t | _ => ""),
          company_name := dictGetStrD config "company_name" "Company",
          department := dictGetStrD config "department" "General",
          min_salary := dictGetIntD config "min_salary" 80000,
          max_salary := dictGetIntD config "max_salary" 120000,
          job_analysis := .dict [], sourcing_strategy := .dict [],
          screening_criteria := .dict [], compensation_package := .dict [],
          offer_letter := "", errors := [], validation_results := [] }
      match invoke initial_state with
      | .error e => .error e
      | .ok final_state =>
          .ok { config := config,
                job_analysis := final_state.job_analysis,
                sourcing_strategy := final_state.sourcing_strategy,
                screening_criteria := final_state.screening_criteria,
                compensation_package := final_state.compensation_package,
                offer_letter := final_state.offer_letter }

/-- The body of the `process_batch` loop for one config at index `idx`:
a raised exception is caught and recorded as an error entry carrying
the message and the original config; otherwise the success entry is
tagged with the index and status. -/
def batchEntryFor (invoke : RState → Except String RState) (idx : Nat)
    (config : PyDict) : BatchEntry :=
  match process_single invoke config with
  | .ok r => .success idx r.config r.job_analysis r.sourcing_strategy
      r.screening_criteria r.compensation_package r.offer_letter
  | .error e => .error idx e config

/-- The `process_batch` loop of `app.py` (lines 89-111) with its
running `enumerate` index.  The progress callback is a side-effecting
presentation hook that neither reads nor writes the results and is not
modelled. -/
def processBatchAux (invoke : RState → Except String RState) :
    Nat → List PyDict → List BatchEntry
  | _, [] => []
  | idx, config :: rest =>
      batchEntryFor invoke idx config :: processBatchAux invoke (idx + 1) rest

/-- `BatchProcessor.process_batch` of `app.py` (lines 89-111). -/
def process_batch (invoke : RState → Except String RState)
    (job_configs : List PyDict) : List BatchEntry :=
  processBatchAux invoke 0 job_configs

end Batch

namespace Retry

/-- The outcome of one external call: a value, or a raised exception. -/
inductive CallResult (α : Type) where
  | ok (val : α)
  | exn (msg : String)
deriving Repr, DecidableEq

/-- The tenacity `@retry(stop=stop_after_attempt(max), ...)` wrapper:
runs the decorated body, retrying (after a backoff wait, which has no
observable effect in this embedding) whenever the body raises, until
the attempt budget is spent; the pair returned is the final outcome and
the number of attempts made.  `body` receives the 1-based attempt
number; `rem` is the number of retries still allowed. -/
def retryGo (body : Nat → CallResult α) : Nat → Nat → CallResult α × Nat
  | attempt, 0 => (body attempt, attempt)
  | attempt, rem + 1 =>
      match body attempt with
      | .ok v => (.ok v, attempt)
      | .exn _ => retryGo body (attempt + 1) rem

/-- `tenacityRetry maxAttempts body`: at most `maxAttempts` attempts. -/
def tenacityRetry (maxAttempts : Nat) (body : Nat → CallResult α) : CallResult α × Nat :=
  retryGo body 1 (maxAttempts - 1)

/-- `Config.MAX_RETRIES` of `config.py` (line 30). -/
def MAX_RETRIES : Nat := 3

/-- The body of `JDParserAgent.parse` of `agents/jd_parser.py` (lines
29-72): the whole body is a `try` whose `except Exception` returns
`None`, so the body never raises — a failing completion call and a
JSON decoding failure alike are converted to `.ok Option.none` before
tenacity can observe them.  `call` is the external completion
capability at each attempt and `decode` embeds `json.loads`. -/
def parseBody (call : Nat → CallResult String) (decode : String → Option PyVal)
    (attempt : Nat) : CallResult (Option PyVal) :=
  match call attempt with
  | .exn _ => .ok Option.none
  | .ok content =>
      match decode content with
      | some result => .ok (some result)
      | Option.none => .ok Option.none

/-- `JDParserAgent.parse` with its `@retry(stop=stop_after_attempt(
Config.MAX_RETRIES), wait=wait_exponential(...))` decorator applied:
the final outcome together with the number of attempts actually made. -/
def parse (call : Nat → CallResult String) (decode : String → Option PyVal) :
    CallResult (Option PyVal) × Nat :=
  tenacityRetry MAX_RETRIES (parseBody call decode)

/-- The body of `EmbeddingService.generate_embedding` of
`services/embedding.py`: unlike the agent bodies, its `except` clause
re-raises, so transient failures are visible to tenacity. -/
def generateEmbeddingBody (call : Nat → CallResult (List ℚ)) (attempt : Nat) :
    CallResult (List ℚ) :=
  match call attempt with
  | .exn e => .exn e
  | .ok emb => .ok emb

/-- `EmbeddingService.generate_embedding` with its retry decorator. -/
def generate_embedding (call : Nat → CallResult (List ℚ)) :
    CallResult (List ℚ) × Nat :=
  tenacityRetry MAX_RETRIES (generateEmbeddingBody call)

end Retry

section Fixtures

/-- A 61-character job description used as a concrete valid input. -/
def jd61 : String := "Senior Python Developer with more than five years experience."

/-- A concrete valid initial workflow state. -/
def wfState0 : Langgraph.RState :=
  { job_description := jd61, company_name := "TechCorp", department := "Engineering",
    min_salary := 120000, max_salary := 160000,
    job_analysis := .dict [], sourcing_strategy := .dict [],
    screening_criteria := .dict [], compensation_package := .dict [],
    offer_letter := "", errors := [], validation_results := [] }

/-- A JSON decoder for which every payload is malformed. -/
def decodeFail : String → Option PyVal := fun _ => Option.none

/-- A completion capability that answers every stage with the same
non-JSON payload. -/
def completeBad : Langgraph.Stage → String := fun _ => "not json"

/-- An input state with the salary floor equal to the ceiling (both
zero, as a state missing its salary keys yields). -/
def zeroSalaryInput : InputState :=
  { job_description := "", company_name := "", department := "",
    min_salary := 0, max_salary := 0 }

/-- An input state whose job description is 50 characters of
whitespace: at least 50 characters long, but blank once stripped. -/
def whitespaceInput : InputState :=
  { job_description := String.mk (List.replicate 50 ' '), company_name := "X",
    department := "D", min_salary := 1, max_salary := 2 }

/-- A valid input state for witnesses. -/
def validInput : InputState :=
  { job_description := jd61, company_name := "TechCorp", department := "Engineering",
    min_salary := 120000, max_salary := 160000 }

/-- A batch config carrying the required `job_description` key. -/
def cfgGood : PyDict :=
  [("job_description", .str jd61), ("company_name", .str "TechCorp")]

/-- A malformed batch config: no `job_description` key, so
`process_single` raises `KeyError`. -/
def cfgBad : PyDict := [("company_name", .str "NoJobCo")]

/-- The three-config batch of the C7 example. -/
def cfgsExample : List PyDict := [cfgGood, cfgBad, cfgGood]

/-- A graph invocation that completes every run unchanged (all stages
succeed); only the batch-level control flow matters for C7. -/
def invokeOk : Langgraph.RState → Except String Langgraph.RState := fun s => .ok s

/-- A stored job description for the C3 example. -/
def jdC3 : PyDict := [("id", .str "jd1"), ("text", .str "backend role")]

/-- An embedding capability for the C3 example. -/
def embedC3 : String → List ℚ := fun _ => [1]

/-- A vector search returning three resumes with distances 0.5, 0.6,
0.6 — similarity scores 0.5, 0.4, 0.4 in retrieval order. -/
def searchC3 : List ℚ → Nat → Retrieval.SearchResults := fun _ _ =>
  { ids := ["r1", "r2", "r3"], documents := ["alice", "bob", "carol"],
    metadatas := [[], [], []], distances := [1/2, 3/5, 3/5] }

/-- A screening capability assigning scores 72, 95, 81 to the three
resumes of the C3 example, in retrieval order. -/
def screenC3 : PyDict → Retrieval.ScreenOutcome := fun c =>
  .result (.dict [("score", .int (
      if dictGetStrD c "resume_text" "" == "alice" then 72
      else if dictGetStrD c "resume_text" "" == "bob" then 95
      else 81)),
    ("recommendation", .str "HIRE")])

/-- A screening capability that returns an empty dict for every
candidate: a completed, non-null, but falsy screening result. -/
def screenEmptyDict : PyDict → Retrieval.ScreenOutcome := fun _ => .result (.dict [])

/-- The single candidate of the C10 counterexample. -/
def candR : PyDict := [("resume_text", .str "r")]

end Fixtures

section Helpers

@[simp]
theorem dictHas_nil (k : String) : dictHas [] k = false := rfl

@[simp]
theorem dictGet_nil (k : String) : dictGet [] k = Option.none := rfl

/-- The error list of the Langgraph `validate_input` as the
concatenation of its four independent checks. -/
theorem lg_validate_input_errors (s : InputState) :
    (Langgraph.validate_input s).errors =
      (if s.job_description == "" || decide ((pyStrip s.job_description).length < 50) then
         ["Job description must be at least 50 characters"] else []) ++
      (if s.company_name == "" then ["Company name is required"] else []) ++
      (if decide (s.min_salary ≤ 0) || decide (s.max_salary ≤ 0) then
         ["Salary range must be positive numbers"] else []) ++
      (if decide (s.min_salary ≥ s.max_salary) then
         ["Minimum salary must be less than maximum salary"] else []) := by
  simp only [Langgraph.validate_input]
  split <;> split <;> split <;> split <;> simp

/-- The Langgraph `validate_input` is valid exactly when its error list
is empty. -/
theorem lg_validate_input_valid (s : InputState) :
    (Langgraph.validate_input s).valid = (Langgraph.validate_input s).errors.isEmpty := rfl

/-- The error list of the demo `validate_input` as a concatenation,
with the salary `elif` chain reporting at most one salary error. -/
theorem demo_validate_input_errors (s : InputState) (now : String) :
    (Demo.validate_input s now).errors =
      (if s.job_description == "" || decide ((pyStrip s.job_description).length < 50) then
         ["❌ Job description must be at least 50 characters"] else []) ++
      (if s.company_name == "" then ["❌ Company name is required"] else []) ++
      (if decide (s.min_salary ≤ 0) || decide (s.max_salary ≤ 0) then
         ["❌ Salary range must be positive numbers"]
       else if decide (s.min_salary ≥ s.max_salary) then
         ["❌ Minimum salary must be less than maximum salary"] else []) := by
  simp only [Demo.validate_input]
  split <;> split <;> split <;> split <;> simp_all

/-- The demo `validate_input` is valid exactly when its error list is
empty. -/
theorem demo_validate_input_valid (s : InputState) (now : String) :
    (Demo.validate_input s now).valid = (Demo.validate_input s now).errors.isEmpty := rfl

end Helpers

/-- C4 (counterexample): `validate_output` on an empty dict with two
required fields reports a single aggregated missing-fields error, not
one error per missing field as the claim states. -/
theorem claim_C4_counterexample :
    (Demo.validate_agent_output "Job Parser" (.dict []) ["a", "b"] "t").errors.length = 1 ∧
    ¬ ((Demo.validate_agent_output "Job Parser" (.dict []) ["a", "b"] "t").errors.length
        = (["a", "b"] : List String).length) := by
  constructor
  · rfl
  · decide

/-- C4 (amended): for every non-empty list of required fields, both
`validate_agent_output` variants applied to an empty dict return
`valid = false` with exactly one error — a single message listing all
the missing fields — and no warnings at all (in particular none about
type mismatches). -/
theorem claim_C4 (name : String) (fields : List String) (now : String) (h : fields ≠ []) :
    ((Demo.validate_agent_output name (.dict []) fields now).valid = false ∧
     (Demo.validate_agent_output name (.dict []) fields now).errors =
       ["❌ " ++ name ++ ": Missing required fields: " ++ String.intercalate ", " fields] ∧
     (Demo.validate_agent_output name (.dict []) fields now).warnings = []) ∧
    ((Langgraph.validate_agent_output name (.dict []) fields).valid = false ∧
     (Langgraph.validate_agent_output name (.dict []) fields).errors =
       [name ++ ": Missing fields: " ++ String.intercalate ", " fields] ∧
     (Langgraph.validate_agent_output name (.dict []) fields).warnings = []) := by
  simp [Demo.validate_agent_output, Langgraph.validate_agent_output, h, Demo.type_hints]

/-- C4 witness: the amended statement at a concrete instance. -/
theorem claim_C4_witness :
    (Demo.validate_agent_output "X" (.dict []) ["a", "b"] "t").valid = false ∧
    (Langgraph.validate_agent_output "X" (.dict []) ["a", "b"]).warnings = [] :=
  ⟨(claim_C4 "X" ["a", "b"] "t" (by decide)).1.1,
   (claim_C4 "X" ["a", "b"] "t" (by decide)).2.2.2⟩

/-- C5 (counterexample): on an input state with floor = ceiling = 0 the
demo `validate_input` reports the positivity error only — its salary
checks form an `elif` chain — so the errors list contains zero (not
exactly one) errors about salary ordering, while `valid` is `false`. -/
theorem claim_C5_counterexample :
    zeroSalaryInput.min_salary ≥ zeroSalaryInput.max_salary ∧
    (Demo.validate_input zeroSalaryInput "t").valid = false ∧
    (Demo.validate_input zeroSalaryInput "t").errors.countP
      (fun e => e == "❌ Minimum salary must be less than maximum salary") = 0 ∧
    ¬ ((Demo.validate_input zeroSalaryInput "t").errors.countP
      (fun e => e == "❌ Minimum salary must be less than maximum salary") = 1) := by
  decide

/-- C5 (amended): whenever the salary floor is at least the ceiling,
the Langgraph `validate_input` returns `valid = false` with exactly one
salary-ordering error; the demo variant does the same provided the
ceiling (and hence also the floor) is positive — otherwise it reports
only the positivity error, still with `valid = false`. -/
theorem claim_C5 (s : InputState) (now : String) (h : s.min_salary ≥ s.max_salary) :
    ((Langgraph.validate_input s).valid = false ∧
     (Langgraph.validate_input s).errors.countP
       (fun e => e == "Minimum salary must be less than maximum salary") = 1) ∧
    (0 < s.max_salary →
     (Demo.validate_input s now).valid = false ∧
     (Demo.validate_input s now).errors.countP
       (fun e => e == "❌ Minimum salary must be less than maximum salary") = 1) := by
  have hord : decide (s.min_salary ≥ s.max_salary) = true := decide_eq_true h
  refine ⟨⟨?_, ?_⟩, ?_⟩
  · rw [lg_validate_input_valid, lg_validate_input_errors, hord]
    split <;> split <;> split <;> decide
  · rw [lg_validate_input_errors, hord]
    split <;> split <;> split <;> decide
  · intro hmax
    have hmin : 0 < s.min_salary := lt_of_lt_of_le hmax h
    have h1 : decide (s.min_salary ≤ 0) = false := decide_eq_false (not_le.mpr hmin)
    have h2 : decide (s.max_salary ≤ 0) = false := decide_eq_false (not_le.mpr hmax)
    refine ⟨?_, ?_⟩
    · rw [demo_validate_input_valid, demo_validate_input_errors, hord, h1, h2]
      split <;> split <;> decide
    · rw [demo_validate_input_errors, hord, h1, h2]
      split <;> split <;> decide

/-- C5 witness: the amended statement at a concrete instance with both
bounds positive and floor above ceiling. -/
theorem claim_C5_witness :
    (Langgraph.validate_input
      { job_description := jd61, company_name := "X", department := "D",
        min_salary := 200000, max_salary := 100000 }).valid = false ∧
    (Demo.validate_input
      { job_description := jd61, company_name := "X", department := "D",
        min_salary := 200000, max_salary := 100000 } "t").errors.countP
      (fun e => e == "❌ Minimum salary must be less than maximum salary") = 1 :=
  ⟨(claim_C5 _ "t" (by decide)).1.1, ((claim_C5 _ "t" (by decide)).2 (by decide)).2⟩

/-- C6 (counterexample): a job description of exactly 50 characters —
all whitespace — together with a non-empty company name and salary
bounds 0 < 1 < 2 ≤ 1,000,000 satisfies every premise of the claim, yet
both `validate_input` variants reject it because they measure the
stripped length. -/
theorem claim_C6_counterexample :
    whitespaceInput.job_description.length = 50 ∧
    whitespaceInput.company_name ≠ "" ∧
    0 < whitespaceInput.min_salary ∧
    whitespaceInput.min_salary < whitespaceInput.max_salary ∧
    whitespaceInput.max_salary ≤ 1000000 ∧
    (Langgraph.validate_input whitespaceInput).valid = false ∧
    (Langgraph.validate_input whitespaceInput).errors ≠ [] ∧
    (Demo.validate_input whitespaceInput "t").valid = false := by
  decide

/-- C6 (amended): for every input state whose job description has a
whitespace-stripped length of at least 50 characters, a non-empty
company name, and salary bounds with 0 < floor < ceiling ≤ 1,000,000,
both `validate_input` variants return `valid = true` with an empty
errors list. -/
theorem claim_C6 (s : InputState) (now : String)
    (hjd : 50 ≤ (pyStrip s.job_description).length)
    (hco : s.company_name ≠ "")
    (hmin : 0 < s.min_salary) (hlt : s.min_salary < s.max_salary)
    (_hmax : s.max_salary ≤ 1000000) :
    (Langgraph.validate_input s).valid = true ∧
    (Langgraph.validate_input s).errors = [] ∧
    (Demo.validate_input s now).valid = true ∧
    (Demo.validate_input s now).errors = [] := by
  have hne : s.job_description ≠ "" := by
    intro e
    rw [e] at hjd
    exact absurd hjd (by decide)
  have c1a : (s.job_description == "") = false := beq_eq_false_iff_ne.mpr hne
  have c1b : decide ((pyStrip s.job_description).length < 50) = false :=
    decide_eq_false (not_lt.mpr hjd)
  have c2 : (s.company_name == "") = false := beq_eq_false_iff_ne.mpr hco
  have c3a : decide (s.min_salary ≤ 0) = false := decide_eq_false (not_le.mpr hmin)
  have c3b : decide (s.max_salary ≤ 0) = false :=
    decide_eq_false (not_le.mpr (lt_trans hmin hlt))
  have c4 : decide (s.min_salary ≥ s.max_salary) = false :=
    decide_eq_false (not_le.mpr hlt)
  refine ⟨?_, ?_, ?_, ?_⟩
  · rw [lg_validate_input_valid, lg_validate_input_errors, c1a, c1b, c2, c3a, c3b, c4]
    decide
  · rw [lg_validate_input_errors, c1a, c1b, c2, c3a, c3b, c4]
    decide
  · rw [demo_validate_input_valid, demo_validate_input_errors, c1a, c1b, c2, c3a, c3b, c4]
    decide
  · rw [demo_validate_input_errors, c1a, c1b, c2, c3a, c3b, c4]
    decide

/-- C6 witness: the amended statement at a concrete valid input. -/
theorem claim_C6_witness :
    (Langgraph.validate_input validInput).valid = true ∧
    (Demo.validate_input validInput "t").errors = [] :=
  ⟨(claim_C6 validInput "t" (by decide) (by decide) (by decide) (by decide) (by decide)).1,
   (claim_C6 validInput "t" (by decide) (by decide) (by decide) (by decide)
     (by decide)).2.2.2⟩

/-- C9: both demo validators are pure up to their wall-clock
`timestamp` field — the `valid`/`errors`/`warnings` triple of
`validate_input` and `validate_agent_output` is identical across any
two invocation times on identical inputs, so two calls always agree on
that triple. -/
theorem claim_C9 (s : InputState) (now1 now2 : String) (name : String)
    (output : PyVal) (fields : List String) :
    (Demo.validate_input s now1).triple = (Demo.validate_input s now2).triple ∧
    (Demo.validate_agent_output name output fields now1).triple =
      (Demo.validate_agent_output name output fields now2).triple := by
  refine ⟨rfl, ?_⟩
  cases output <;> rfl

/-- C1 (counterexample): running the workflow on a valid input with a
completion capability whose payload is malformed at every stage yields
exactly four decoding-failure errors — one per JSON-decoding stage —
not five (one per stage) as the claim states; the offer-letter stage
performs no JSON decoding and stores the raw malformed payload instead
of a fixed fallback default. -/
theorem claim_C1_counterexample :
    (Langgraph.runWorkflow decodeFail completeBad wfState0).errors.countP
      (fun e => e == "Job Parser: Failed to parse LLM response" ||
                e == "Sourcing: Failed to parse LLM response" ||
                e == "Screening: Failed to parse LLM response" ||
                e == "Compensation: Failed to parse LLM response" ||
                e == "Offer Letter: Failed to parse LLM response") = 4 ∧
    ¬ ((Langgraph.runWorkflow decodeFail completeBad wfState0).errors.countP
      (fun e => e == "Job Parser: Failed to parse LLM response" ||
                e == "Sourcing: Failed to parse LLM response" ||
                e == "Screening: Failed to parse LLM response" ||
                e == "Compensation: Failed to parse LLM response" ||
                e == "Offer Letter: Failed to parse LLM response") = 5) ∧
    (Langgraph.runWorkflow decodeFail completeBad wfState0).offer_letter = "not json" := by
  refine ⟨rfl, by decide, rfl⟩

/-- C1 (amended): on any valid-input state, running the workflow with a
completion capability whose payload fails to decode at every stage
leaves the four JSON-decoding stage outputs equal to their fallback
payloads (each carrying its error marker; the compensation figures are
computed from the input salary bounds), appends exactly one
decoding-failure error for each of those four stages, and stores the
raw response of the offer stage as the offer letter, with an additional
too-short error exactly when that response is under 200 characters. -/
theorem claim_C1 (decode : String → Option PyVal) (complete : Langgraph.Stage → String)
    (s : Langgraph.RState)
    (hdec : ∀ p, decode p = Option.none)
    (hval : (Langgraph.validate_input s.inputView).valid = true) :
    (Langgraph.runWorkflow decode complete s).job_analysis =
      .dict Langgraph.jobParserFallback ∧
    (Langgraph.runWorkflow decode complete s).sourcing_strategy =
      .dict Langgraph.sourcingFallback ∧
    (Langgraph.runWorkflow decode complete s).screening_criteria =
      .dict Langgraph.screeningFallback ∧
    (Langgraph.runWorkflow decode complete s).compensation_package =
      .dict (Langgraph.compensationFallback s.min_salary s.max_salary) ∧
    (Langgraph.runWorkflow decode complete s).offer_letter =
      complete Langgraph.Stage.generate_offer ∧
    (Langgraph.runWorkflow decode complete s).errors =
      s.errors ++
        ["Job Parser: Failed to parse LLM response",
         "Sourcing: Failed to parse LLM response",
         "Screening: Failed to parse LLM response",
         "Compensation: Failed to parse LLM response"] ++
        (if decide ((complete Langgraph.Stage.generate_offer).length < 200) then
           ["Offer Letter: Generated letter is too short"]
         else []) := by
  simp only [Langgraph.runWorkflow, Langgraph.job_parser_agent,
    Langgraph.candidate_sourcing_agent, Langgraph.screening_agent,
    Langgraph.compensation_agent, Langgraph.offer_letter_agent, hdec, hval,
    Bool.not_true, Bool.false_eq_true, if_false]
  split <;> simp [List.append_assoc]

/-- C1 witness: the amended statement at the concrete malformed run. -/
theorem claim_C1_witness :
    (Langgraph.runWorkflow decodeFail completeBad wfState0).sourcing_strategy =
      .dict Langgraph.sourcingFallback ∧
    (Langgraph.runWorkflow decodeFail completeBad wfState0).compensation_package =
      .dict (Langgraph.compensationFallback 120000 160000) :=
  ⟨(claim_C1 decodeFail completeBad wfState0 (fun _ => rfl) (by decide)).2.1,
   (claim_C1 decodeFail completeBad wfState0 (fun _ => rfl) (by decide)).2.2.2.1⟩

/-- C2: the `@retry` decorator on `JDParserAgent.parse` declares a
three-attempt exponential-backoff policy, but the method body catches
every exception and returns `None`, so tenacity never observes a
failure: `parse` makes exactly one attempt for every behaviour of the
completion capability, and under a persistently failing capability it
returns the `None` fallback after that single attempt.  By contrast
`EmbeddingService.generate_embedding`, whose body re-raises, exhausts
all `Config.MAX_RETRIES = 3` attempts — evidence that the one-attempt
behaviour of `parse` contradicts the declared retry policy. -/
theorem claim_C2 :
    (∀ (call : Nat → Retry.CallResult String) (decode : String → Option PyVal),
       (Retry.parse call decode).2 = 1) ∧
    (Retry.parse (fun _ => .exn "RateLimitError") (fun _ => Option.none)).2 = 1 ∧
    (Retry.parse (fun _ => .exn "RateLimitError") (fun _ => Option.none)).1 =
      .ok Option.none ∧
    (Retry.generate_embedding (fun _ => .exn "RateLimitError")).2 = Retry.MAX_RETRIES := by
  refine ⟨?_, rfl, rfl, rfl⟩
  intro call decode
  show (Retry.retryGo (Retry.parseBody call decode) 1 2).2 = 1
  cases h : call 1 with
  | ok content =>
      cases hd : decode content <;>
        simp [Retry.retryGo, Retry.parseBody, h, hd]
  | exn e =>
      simp [Retry.retryGo, Retry.parseBody, h]

/-- C3 (counterexample): with candidates retrieved at similarity 0.5,
0.4, 0.4 and screened at scores 72, 95, 81 in that retrieval order, the
pipeline returns them in retrieval order [72, 95, 81], not sorted
descending by screening score as the claim states — no sorting step
exists anywhere in the repository. -/
theorem claim_C3_counterexample :
    (Retrieval.rank_candidates (some jdC3) embedC3 searchC3 10 screenC3).map
      Retrieval.screeningScore = [some 72, some 95, some 81] ∧
    ¬ ((Retrieval.rank_candidates (some jdC3) embedC3 searchC3 10 screenC3).map
      Retrieval.screeningScore = [some 95, some 81, some 72]) := by
  refine ⟨rfl, by decide⟩

/-- C3 (amended): whenever every screening outcome is kept, the
pipeline returns the retrieved candidates in their original retrieval
order, each extended with its screening result — it never reorders by
screening score; in the concrete example the output score order is
[72, 95, 81]. -/
theorem claim_C3 (jd : Option PyDict) (embed : String → List ℚ)
    (search : List ℚ → Nat → Retrieval.SearchResults) (top_k : Nat)
    (screen : PyDict → Retrieval.ScreenOutcome)
    (h : ∀ c, (screen c).kept = true) :
    Retrieval.rank_candidates jd embed search top_k screen =
      (Retrieval.retrieve_candidates_for_job jd embed search top_k).map
        (fun c => dictSet c "screening" (screen c).value) ∧
    (Retrieval.rank_candidates (some jdC3) embedC3 searchC3 10 screenC3).map
      Retrieval.screeningScore = [some 72, some 95, some 81] := by
  refine ⟨?_, rfl⟩
  unfold Retrieval.rank_candidates Retrieval.screen_multiple_candidates
  have hfun : ∀ c : PyDict,
      (match screen c with
       | .exn _ => (Option.none : Option PyDict)
       | .result v => if v.truthy then some (dictSet c "screening" v) else Option.none) =
      some (dictSet c "screening" (screen c).value) := by
    intro c
    have hk := h c
    cases hc : screen c with
    | exn m => rw [hc] at hk; exact absurd hk (by simp [Retrieval.ScreenOutcome.kept])
    | result v =>
        rw [hc] at hk
        simp only [Retrieval.ScreenOutcome.kept] at hk
        simp [hk, Retrieval.ScreenOutcome.value]
  induction Retrieval.retrieve_candidates_for_job jd embed search top_k with
  | nil => rfl
  | cons c rest ih =>
      simp only [List.filterMap_cons, List.map_cons, hfun c, ih]

/-- C3 witness: the amended statement at the concrete example, whose
screening outcomes are all kept. -/
theorem claim_C3_witness :
    Retrieval.rank_candidates (some jdC3) embedC3 searchC3 10 screenC3 =
      (Retrieval.retrieve_candidates_for_job (some jdC3) embedC3 searchC3 10).map
        (fun c => dictSet c "screening" (screenC3 c).value) :=
  (claim_C3 (some jdC3) embedC3 searchC3 10 screenC3 (fun _ => rfl)).1

/-- The batch loop produces one entry per config. -/
theorem processBatchAux_length (invoke : Langgraph.RState → Except String Langgraph.RState)
    (configs : List PyDict) (k : Nat) :
    (Batch.processBatchAux invoke k configs).length = configs.length := by
  induction configs generalizing k with
  | nil => rfl
  | cons c rest ih => simp [Batch.processBatchAux, ih]

/-- The batch loop entry at position `i` is the entry for the config at
position `i`, tagged with the absolute index. -/
theorem processBatchAux_get? (invoke : Langgraph.RState → Except String Langgraph.RState)
    (configs : List PyDict) (k i : Nat) :
    (Batch.processBatchAux invoke k configs).get? i =
      (configs.get? i).map (fun c => Batch.batchEntryFor invoke (k + i) c) := by
  induction configs generalizing k i with
  | nil => simp [Batch.processBatchAux]
  | cons c rest ih =>
      cases i with
      | zero => simp [Batch.processBatchAux]
      | succ j =>
          have harith : k + 1 + j = k + (j + 1) := by omega
          simp only [Batch.processBatchAux, List.get?_cons_succ]
          rw [ih (k + 1) j, harith]

/-- C7: `process_batch` returns exactly one entry per config, in input
order; an item whose run raises is recorded at its own index as an
error entry carrying the exception message and the original config (and
the surrounding items are unaffected); an item whose run does not raise
gets status success; and over the concrete batch
[valid, malformed, valid] the statuses are success, error, success. -/
theorem claim_C7 (invoke : Langgraph.RState → Except String Langgraph.RState)
    (configs : List PyDict) (i : Nat) :
    (Batch.process_batch invoke configs).length = configs.length ∧
    (∀ cfg, configs.get? i = some cfg →
      (∀ msg, Batch.process_single invoke cfg = .error msg →
        (Batch.process_batch invoke configs).get? i = some (.error i msg cfg)) ∧
      (∀ r, Batch.process_single invoke cfg = .ok r →
        ∃ e, (Batch.process_batch invoke configs).get? i = some e ∧
          e.status = "success")) ∧
    (Batch.process_batch invokeOk cfgsExample).map Batch.BatchEntry.status =
      ["success", "error", "success"] := by
  refine ⟨processBatchAux_length invoke configs 0, ?_, rfl⟩
  intro cfg hcfg
  have hget := processBatchAux_get? invoke configs 0 i
  rw [hcfg] at hget
  simp only [Nat.zero_add] at hget
  constructor
  · intro msg hmsg
    rw [Batch.process_batch, hget]
    simp [Batch.batchEntryFor, hmsg]
  · intro r hr
    refine ⟨Batch.batchEntryFor invoke i cfg, ?_, ?_⟩
    · rw [Batch.process_batch, hget]
      rfl
    · simp [Batch.batchEntryFor, hr, Batch.BatchEntry.status]

/-- C7 witness: the general statement at the concrete batch, with the
malformed middle config raising `KeyError` on its missing
`job_description` key. -/
theorem claim_C7_witness :
    (Batch.process_batch invokeOk cfgsExample).get? 1 =
      some (.error 1 "\x27job_description\x27" cfgBad) :=
  ((claim_C7 invokeOk cfgsExample 1).2.1 cfgBad rfl).1 "\x27job_description\x27" rfl

/-- C8: candidate retrieval returns the empty list — rather than
raising or an error value — whenever the job-description id is not
found in the store, and likewise whenever the vector search retrieves
zero candidates. -/
theorem claim_C8 (jd : Option PyDict) (embed : String → List ℚ)
    (search : List ℚ → Nat → Retrieval.SearchResults) (top_k : Nat)
    (h : jd = Option.none ∨ ∀ e n, (search e n).ids = []) :
    Retrieval.retrieve_candidates_for_job jd embed search top_k = [] := by
  rcases h with h | h
  · rw [h]
    rfl
  · cases jd with
    | none => rfl
    | some j =>
        simp only [Retrieval.retrieve_candidates_for_job]
        split
        · rfl
        · split
          · simp only [Retrieval.buildCandidates, h]
            rfl
          · rfl

/-- C8 witness: the statement at a concrete store containing the job
description, with a vector search that retrieves nothing. -/
theorem claim_C8_witness :
    Retrieval.retrieve_candidates_for_job (some jdC3) embedC3
      (fun _ _ => { ids := [], documents := [], metadatas := [], distances := [] })
      10 = [] :=
  claim_C8 (some jdC3) embedC3
    (fun _ _ => { ids := [], documents := [], metadatas := [], distances := [] })
    10 (Or.inr (fun _ _ => rfl))

/-- C10 (counterexample): a candidate whose screening task completes
with an empty dict — a result that neither raised nor is null — is
nevertheless omitted from the output (the loop tests Python truthiness,
`if result:`), contradicting the claim that only raised or null
screenings are omitted; the claim-side reading keeps it. -/
theorem claim_C10_counterexample :
    Retrieval.screen_multiple_candidates screenEmptyDict [candR] = [] ∧
    screenEmptyDict candR = .result (.dict []) ∧
    Retrieval.screen_multiple_candidates_claimC10 screenEmptyDict [candR] =
      [dictSet candR "screening" (.dict [])] ∧
    Retrieval.screen_multiple_candidates screenEmptyDict [candR] ≠
      Retrieval.screen_multiple_candidates_claimC10 screenEmptyDict [candR] := by
  refine ⟨rfl, rfl, rfl, ?_⟩
  intro h
  rw [show Retrieval.screen_multiple_candidates screenEmptyDict [candR] =
        ([] : List PyDict) from rfl,
      show Retrieval.screen_multiple_candidates_claimC10 screenEmptyDict [candR] =
        [dictSet candR "screening" (.dict [])] from rfl] at h
  exact List.noConfusion h

/-- C10 (amended): `screen_multiple_candidates` returns exactly the
candidates whose screening outcome is kept — completed with a truthy
(non-null, non-empty) result — in input order, each extended with its
`screening` key; candidates whose task raised or whose result is falsy
(null or an empty structure) are omitted, nothing is duplicated and no
foreign element appears. -/
theorem claim_C10 (screen : PyDict → Retrieval.ScreenOutcome)
    (candidates : List PyDict) :
    Retrieval.screen_multiple_candidates screen candidates =
      (candidates.filter (fun c => (screen c).kept)).map
        (fun c => dictSet c "screening" (screen c).value) := by
  induction candidates with
  | nil => rfl
  | cons c rest ih =>
      simp only [Retrieval.screen_multiple_candidates, List.filterMap_cons,
        List.filter_cons] at ih ⊢
      cases hc : screen c with
      | exn m =>
          simp [Retrieval.ScreenOutcome.kept, hc, ih]
      | result v =>
          cases hv : v.truthy <;>
            simp [Retrieval.ScreenOutcome.kept, Retrieval.ScreenOutcome.value, hc, hv, ih]
